import Mathlib

/-!
Shallow embedding of `src/watcher.py` (solana-trade-assist).

The watcher polls a transaction feed for a wallet, filters novelty against a
persisted cursor (the last processed signature), enriches each new transaction
with token identity (memoised metadata lookup), notifies a delivery channel,
and advances the cursor per transaction.  Remote calls are modelled by passing
their responses in explicitly; the in-memory metadata cache and the cursor
store are explicit state.  Python dictionary fields that may be absent are
`Option`s; Python truthiness on strings/lists/ints is modelled explicitly.
Timestamps are modelled as `Option Nat` (non-negative Unix seconds; an absent
JSON key is `none`).
-/

namespace Watcher

/-- `POLL_INTERVAL_SEC = 20` from watcher.py line 29. -/
def POLL_INTERVAL_SEC : Nat := 20

/-- `MAX_BACKOFF = 300` from watcher.py line 30. -/
def MAX_BACKOFF : Nat := 300

/-- The nested `token` object on a transfer (`candidate.get("token")`),
with optional `name`/`symbol` fields. -/
structure TokenInfo where
  name : Option String
  symbol : Option String
deriving DecidableEq

/-- One element of a transaction's `tokenTransfers` list, with the fields
read by `extract_token_details` (watcher.py lines 111-124). -/
structure TokenTransfer where
  fromUserAccount : Option String
  toUserAccount : Option String
  mint : Option String
  token : Option TokenInfo
  tokenName : Option String
  tokenSymbol : Option String
deriving DecidableEq

/-- A raw transaction from the feed: the fields the watcher reads
(`signature`, `timestamp`, `tokenTransfers`). -/
structure RawTx where
  signature : Option String
  timestamp : Option Nat
  tokenTransfers : Option (List TokenTransfer)
deriving DecidableEq

/-- Python truthiness of an optional string: `None` and `""` are falsy. -/
def pyTruthyS (v : Option String) : Bool :=
  match v with
  | none => false
  | some s => s != ""

/-- Python `x or d` where `x` is an optional string: falsy (`None`/`""`)
falls through to the default. -/
def pyOrS (v : Option String) (d : String) : String :=
  match v with
  | none => d
  | some s => if s != "" then s else d

/-- Sort key of the poll loop: `t.get("timestamp", 0)`
(watcher.py line 154); a missing timestamp sorts as `0`. -/
def sortKey (t : RawTx) : Nat :=
  t.timestamp.getD 0

/-- The comparison used to sort a fetched window: ascending `sortKey`. -/
abbrev rKey (a b : RawTx) : Prop :=
  sortKey a ≤ sortKey b

instance : DecidableRel rKey := fun _ _ => Nat.decLe _ _

instance : IsTotal RawTx rKey := ⟨fun _ _ => Nat.le_total _ _⟩

instance : IsTrans RawTx rKey := ⟨fun _ _ _ => Nat.le_trans⟩

/-- `sorted(txs, key=lambda t: t.get("timestamp", 0))` (watcher.py line 154).
Python's `sorted` is stable; insertion sort with a total preorder computes
the same stable result. -/
def sortWindow (txs : List RawTx) : List RawTx :=
  List.insertionSort rKey txs

/-- The novelty filter of the poll loop (watcher.py lines 153-158): sort the
window ascending by timestamp; when `last_sig` is truthy, keep exactly the
transactions whose signature differs from it, else keep the whole sorted
window. -/
def selectNew (txs : List RawTx) (last_sig : Option String) : List RawTx :=
  let txs_sorted := sortWindow txs
  if pyTruthyS last_sig then
    txs_sorted.filter (fun t => t.signature != last_sig)
  else
    txs_sorted

/-- Sample transactions used by concrete counterexamples and witnesses. -/
def txA : RawTx := ⟨some "A", some 100, none⟩

def txB : RawTx := ⟨some "B", some 200, none⟩

def txC : RawTx := ⟨some "C", some 150, none⟩

example : selectNew [txB, txA] none = [txA, txB] := by decide

example : selectNew [txA, txB] (some "B") = [txA] := by decide

example : selectNew [txA] (some "A") = [] := by decide

/-! ### Timestamp rendering (`ts_to_iso`, watcher.py lines 99-100)

`datetime.fromtimestamp(ts_seconds, tz=timezone.utc).isoformat()` renders
Unix seconds as `YYYY-MM-DDTHH:MM:SS+00:00`.  The civil-date conversion is
the standard Gregorian days-to-date algorithm, valid for all `days ≥ 0`
(dates from 1970 on); every `Nat` subtraction below is underflow-free on
that domain. -/

/-- Convert days since 1970-01-01 to `(year, month, day)` (proleptic
Gregorian calendar). -/
def civilFromDays (days : Nat) : Nat × Nat × Nat :=
  let z := days + 719468
  let era := z / 146097
  let doe := z % 146097
  let yoe := (doe - doe / 1460 + doe / 36524 - doe / 146097) / 365
  let y := yoe + era * 400
  let doy := doe - (365 * yoe + yoe / 4 - yoe / 100)
  let mp := (5 * doy + 2) / 153
  let d := doy - (153 * mp + 2) / 5 + 1
  let m := if mp < 10 then mp + 3 else mp - 9
  (if m ≤ 2 then y + 1 else y, m, d)

/-- Left-pad a number to two digits (`%02d`). -/
def pad2 (n : Nat) : String :=
  if n < 10 then "0" ++ toString n else toString n

/-- Left-pad a number to four digits (`%04d`). -/
def pad4 (n : Nat) : String :=
  if n < 10 then "000" ++ toString n
  else if n < 100 then "00" ++ toString n
  else if n < 1000 then "0" ++ toString n
  else toString n

/-- `ts_to_iso` (watcher.py lines 99-100): ISO-8601 UTC rendering of Unix
seconds, `YYYY-MM-DDTHH:MM:SS+00:00`. -/
def ts_to_iso (ts_seconds : Nat) : String :=
  let days := ts_seconds / 86400
  let sod := ts_seconds % 86400
  let hh := sod / 3600
  let mm := (sod % 3600) / 60
  let ss := sod % 60
  let ymd := civilFromDays days
  pad4 ymd.1 ++ "-" ++ pad2 ymd.2.1 ++ "-" ++ pad2 ymd.2.2 ++ "T" ++
    pad2 hh ++ ":" ++ pad2 mm ++ ":" ++ pad2 ss ++ "+00:00"

example : ts_to_iso 0 = "1970-01-01T00:00:00+00:00" := by decide

example : ts_to_iso 1700000000 = "2023-11-14T22:13:20+00:00" := by decide

/-! ### Token identity cache (`fetch_token_metadata`, watcher.py lines 73-96) -/

/-- The first element of the metadata response array, reduced to the two
fields the code reads: `onChainMetadata.metadata.data.name` / `.symbol`
(each `none` when any level of the chain is missing). -/
structure MetaEntry where
  name : Option String
  symbol : Option String
deriving DecidableEq

/-- Outcome of the metadata POST: a raised exception (network error or
non-2xx status), or a JSON array. -/
inductive MetaResp
  | err
  | ok (data : List MetaEntry)
deriving DecidableEq

/-- The in-memory `_token_cache`: mint address to `(name, symbol)`. -/
abbrev Cache := List (String × String × String)

/-- One optional metadata field as the code normalises it
(watcher.py lines 86-90): `if name: name = name.strip()` then
`name or "unknown"`. -/
def stripField (v : Option String) : String :=
  match v with
  | none => "unknown"
  | some s =>
    let s2 := if s != "" then s.trim else s
    if s2 != "" then s2 else "unknown"

/-- `fetch_token_metadata` (watcher.py lines 75-96) with the cache and the
remote response explicit.  Returns the resolved pair, the updated cache, and
whether a metadata lookup call was issued. -/
def fetch_token_metadata (cache : Cache) (mint : String) (resp : MetaResp) :
    (String × String) × Cache × Bool :=
  match cache.lookup mint with
  | some v => (v, cache, false)
  | none =>
    match resp with
    | .ok (meta :: _) =>
      let v := (stripField meta.name, stripField meta.symbol)
      (v, (mint, v) :: cache, true)
    | .ok [] => (("unknown", "unknown"), (mint, ("unknown", "unknown")) :: cache, true)
    | .err => (("unknown", "unknown"), (mint, ("unknown", "unknown")) :: cache, true)

example :
    fetch_token_metadata [] "Mx" (.ok []) =
      (("unknown", "unknown"), [("Mx", ("unknown", "unknown"))], true) := by decide

example :
    fetch_token_metadata [("Mx", ("N", "S"))] "Mx" .err = (("N", "S"), [("Mx", ("N", "S"))], false) := by
  decide

/-! ### Event enrichment (`extract_token_details`, watcher.py lines 102-139) -/

/-- The structured alert built per transaction (the dict returned by
`extract_token_details`). -/
structure AlertRecord where
  signature : Option String
  time : String
  token_name : String
  ticker : String
  mint : String
deriving DecidableEq

/-- Does a transfer touch the watched wallet
(`t.get("fromUserAccount") == WATCH_WALLET or t.get("toUserAccount") == WATCH_WALLET`,
watcher.py line 114)? -/
def matchesWallet (watched : String) (t : TokenTransfer) : Bool :=
  t.fromUserAccount == some watched || t.toUserAccount == some watched

/-- `iso_time = ts_to_iso(timestamp) if timestamp else "unknown"`
(watcher.py line 105): Python truthiness makes both an absent timestamp and
a timestamp of `0` render as `"unknown"`. -/
def render_time (timestamp : Option Nat) : String :=
  match timestamp with
  | some ts => if ts != 0 then ts_to_iso ts else "unknown"
  | none => "unknown"

/-- Candidate-transfer selection (watcher.py lines 112-118): the first
transfer touching the watched wallet, else the first transfer, else none. -/
def selectCandidate (watched : String) (transfers : List TokenTransfer) :
    Option TokenTransfer :=
  match transfers.find? (matchesWallet watched) with
  | some c => some c
  | none => transfers.head?

/-- `extract_token_details` (watcher.py lines 102-139).  `oracle` supplies the
metadata response by mint; the token cache threads through.  Returns the
alert record, the updated cache, and whether a metadata lookup was issued.
`iso_time` reflects Python truthiness: a timestamp of `0` is falsy and
renders as `"unknown"`. -/
def extract_token_details (watched : String) (oracle : String → MetaResp)
    (cache : Cache) (tx : RawTx) : AlertRecord × Cache × Bool :=
  let iso_time := render_time tx.timestamp
  let transfers := tx.tokenTransfers.getD []
  let candidate := selectCandidate watched transfers
  let fields :=
    match candidate with
    | none => ("unknown", "unknown", "unknown")
    | some c =>
      let mint := pyOrS c.mint "unknown"
      let tokenInfoName :=
        match c.token with
        | some ti => ti.name
        | none => none
      let tokenInfoSymbol :=
        match c.token with
        | some ti => ti.symbol
        | none => none
      let token_name := pyOrS tokenInfoName (pyOrS c.tokenName "unknown")
      let ticker := pyOrS tokenInfoSymbol (pyOrS c.tokenSymbol "unknown")
      (token_name, ticker, mint)
  let token_name := fields.1
  let ticker := fields.2.1
  let mint := fields.2.2
  if mint != "unknown" && (token_name == "unknown" || ticker == "unknown") then
    let r := fetch_token_metadata cache mint (oracle mint)
    ({ signature := tx.signature, time := iso_time,
       token_name := if token_name == "unknown" then r.1.1 else token_name,
       ticker := if ticker == "unknown" then r.1.2 else ticker,
       mint := mint }, r.2.1, r.2.2)
  else
    ({ signature := tx.signature, time := iso_time, token_name := token_name,
       ticker := ticker, mint := mint }, cache, false)

/-! ### Notification (`send_telegram_text`, watcher.py lines 57-70) -/

/-- Observable outcome of `send_telegram_text`: config missing (skip),
delivered (HTTP 200), or a logged delivery failure (non-200 status).  In
every case the Python function returns normally. -/
inductive SendOutcome
  | skipped
  | delivered
  | failed (status : Nat)
deriving DecidableEq

/-- `send_telegram_text` (watcher.py lines 57-70), with the channel's HTTP
status explicit: a non-200 response is only logged, never raised. -/
def send_telegram_text (hasConfig : Bool) (status : Nat) : SendOutcome :=
  if !hasConfig then .skipped
  else if status != 200 then .failed status
  else .delivered

/-! ### Poll loop (`poll_watch_wallet`, watcher.py lines 142-205) -/

/-- Loop state: the in-memory `last_sig`, the persisted cursor file content
(`none` for absent-or-null), and the token cache. -/
structure LoopState where
  lastSig : Option String
  stored : Option String
  cache : Cache
deriving DecidableEq

/-- The state at process start with no cursor file. -/
def initState : LoopState := ⟨none, none, []⟩

/-- Body of the per-transaction loop (watcher.py lines 160-172): enrich,
notify, then set `last_sig` to the transaction's signature and persist it.
Returns the new state and the notification outcome. -/
def processTx (watched : String) (oracle : String → MetaResp) (hasConfig : Bool)
    (status : Nat) (st : LoopState) (tx : RawTx) : LoopState × SendOutcome :=
  let r := extract_token_details watched oracle st.cache tx
  let out := send_telegram_text hasConfig status
  (⟨tx.signature, tx.signature, r.2.1⟩, out)

/-- One poll cycle with a successful fetch (watcher.py lines 151-178):
sort, filter novelty, process each new transaction (advancing and saving the
cursor per transaction), then the first-run fallback that saves the newest
signature when the stored cursor is still falsy.  Returns the new state and
the list of transactions whose signature was saved, in save order. -/
def runCycle (watched : String) (oracle : String → MetaResp) (hasConfig : Bool)
    (status : Nat) (st : LoopState) (txs : List RawTx) : LoopState × List RawTx :=
  if txs.isEmpty then (st, [])
  else
    let txs_sorted := sortWindow txs
    let new_batch := selectNew txs st.lastSig
    let st2 := new_batch.foldl
      (fun s t => (processTx watched oracle hasConfig status s t).1) st
    if !(pyTruthyS st2.stored) && !txs_sorted.isEmpty then
      match txs_sorted.getLast? with
      | some newest =>
        if pyTruthyS newest.signature then
          ({ st2 with lastSig := newest.signature, stored := newest.signature },
            new_batch ++ [newest])
        else (st2, new_batch)
      | none => (st2, new_batch)
    else (st2, new_batch)

/-- The transactions whose signature the watcher saves, concatenated over a
sequence of successfully fetched windows. -/
def savedTrace (watched : String) (oracle : String → MetaResp) (hasConfig : Bool)
    (status : Nat) (st : LoopState) : List (List RawTx) → List RawTx
  | [] => []
  | w :: ws =>
    let r := runCycle watched oracle hasConfig status st w
    r.2 ++ savedTrace watched oracle hasConfig status r.1 ws

/-! ### Backoff (watcher.py lines 180-181 and 190-194) -/

/-- Fetch outcomes distinguished by the loop's exception handlers. -/
inductive FetchOutcome
  | success
  | rateLimited
  | transient
  | fatal
deriving DecidableEq

/-- How one fetch outcome updates `retry_delay`: reset to the poll interval
on success (line 181), double capped at `MAX_BACKOFF` on HTTP 429
(line 194), unchanged on other errors (lines 195-205, which sleep fixed
delays without touching `retry_delay`). -/
def stepDelay (d : Nat) : FetchOutcome → Nat
  | .success => POLL_INTERVAL_SEC
  | .rateLimited => min (d * 2) MAX_BACKOFF
  | .transient => d
  | .fatal => d

/-- The stored `retry_delay` after a sequence of fetch outcomes, starting
from the base delay. -/
def delayAfter (outs : List FetchOutcome) : Nat :=
  outs.foldl stepDelay POLL_INTERVAL_SEC

example : delayAfter (List.replicate 4 .rateLimited) = 300 := by decide

example : delayAfter [.rateLimited, .rateLimited, .success] = 20 := by decide

/-! ### Helper lemmas -/

lemma min_mul_min (a M k : Nat) (hk : 1 ≤ k) : min (min a M * k) M = min (a * k) M := by
  rcases Nat.le_total a M with h | h
  · rw [Nat.min_eq_left h]
  · have h1 : M ≤ M * k := Nat.le_mul_of_pos_right M hk
    have h2 : M ≤ a * k := le_trans h1 (Nat.mul_le_mul_right k h)
    rw [Nat.min_eq_right h, Nat.min_eq_right h1, Nat.min_eq_right h2]

lemma backoff_iter : ∀ (n : Nat) (d : Nat), d ≤ MAX_BACKOFF →
    List.foldl stepDelay d (List.replicate n .rateLimited) =
      min (d * 2 ^ n) MAX_BACKOFF := by
  intro n
  induction n with
  | zero =>
    intro d hd
    simp [Nat.min_eq_left hd]
  | succ n ih =>
    intro d _
    rw [List.replicate_succ, List.foldl_cons]
    have h1 : stepDelay d .rateLimited = min (d * 2) MAX_BACKOFF := rfl
    rw [h1, ih _ (Nat.min_le_right _ _),
      min_mul_min _ _ _ (Nat.one_le_two_pow), Nat.mul_assoc, ← Nat.pow_succ']

lemma filter_key_orderedInsert (k : Nat) (x : RawTx) (l : List RawTx) :
    (List.orderedInsert rKey x l).filter (fun t => sortKey t == k) =
      if sortKey x == k then x :: l.filter (fun t => sortKey t == k)
      else l.filter (fun t => sortKey t == k) := by
  induction l with
  | nil => simp [List.orderedInsert, List.filter_cons]
  | cons y ys ih =>
    rw [List.orderedInsert]
    by_cases hxy : rKey x y
    · rw [if_pos hxy]
      simp [List.filter_cons]
    · rw [if_neg hxy, List.filter_cons]
      have hlt : sortKey y < sortKey x := Nat.lt_of_not_le hxy
      by_cases hx : sortKey x = k
      · have hy : sortKey y ≠ k := by omega
        simp [ih, hx, hy, List.filter_cons]
      · by_cases hy : sortKey y = k
        · simp [ih, hx, hy, List.filter_cons]
        · simp [ih, hx, hy, List.filter_cons]

lemma filter_key_insertionSort (k : Nat) (l : List RawTx) :
    (List.insertionSort rKey l).filter (fun t => sortKey t == k) =
      l.filter (fun t => sortKey t == k) := by
  induction l with
  | nil => rfl
  | cons x xs ih =>
    rw [List.insertionSort, filter_key_orderedInsert, List.filter_cons]
    split <;> rw [ih]

lemma sorted_sortWindow (txs : List RawTx) : List.Sorted rKey (sortWindow txs) :=
  List.sorted_insertionSort rKey txs

lemma sorted_selectNew (txs : List RawTx) (c : Option String) :
    List.Sorted rKey (selectNew txs c) := by
  unfold selectNew
  split
  · exact (sorted_sortWindow txs).sublist (List.filter_sublist _)
  · exact sorted_sortWindow txs

lemma key_le_getLast : ∀ {l : List RawTx}, List.Sorted rKey l → ∀ {a m : RawTx},
    a ∈ l → l.getLast? = some m → sortKey a ≤ sortKey m := by
  intro l
  induction l with
  | nil => intro _ a m ha _; cases ha
  | cons x xs ih =>
    intro hs a m ha hm
    cases xs with
    | nil =>
      simp only [List.mem_singleton] at ha
      have hm' : x = m := by simpa using hm
      subst ha; subst hm'; exact Nat.le_refl _
    | cons y ys =>
      have hm' : (y :: ys).getLast? = some m := by
        rw [List.getLast?_cons_cons] at hm
        exact hm
      have hmem : m ∈ y :: ys := by
        obtain ⟨hne, rfl⟩ := List.mem_getLast?_eq_getLast (Option.mem_def.mpr hm')
        exact List.getLast_mem hne
      rcases List.mem_cons.mp ha with rfl | ha'
      · exact (List.sorted_cons.mp hs).1 m hmem
      · exact ih (List.sorted_cons.mp hs).2 ha' hm'

lemma mem_sortWindow {t : RawTx} {txs : List RawTx} :
    t ∈ sortWindow txs ↔ t ∈ txs :=
  List.mem_insertionSort rKey

lemma mem_of_mem_selectNew {t : RawTx} {txs : List RawTx} {c : Option String} :
    t ∈ selectNew txs c → t ∈ sortWindow txs := by
  unfold selectNew
  split
  · exact fun h => List.mem_of_mem_filter h
  · exact id

lemma find?_first_match (watched : String) :
    ∀ (pre : List TokenTransfer) (c : TokenTransfer) (post : List TokenTransfer),
      matchesWallet watched c = true →
      (∀ p ∈ pre, matchesWallet watched p = false) →
      (pre ++ c :: post).find? (matchesWallet watched) = some c := by
  intro pre
  induction pre with
  | nil =>
    intro c post hc _
    simpa using List.find?_cons_of_pos post hc
  | cons p ps ih =>
    intro c post hc hpre
    have hp : matchesWallet watched p = false := hpre p (List.mem_cons_self p ps)
    rw [List.cons_append, List.find?_cons_of_neg _ (by simp [hp])]
    exact ih c post hc (fun q hq => hpre q (List.mem_cons_of_mem p hq))

lemma extract_time (watched : String) (oracle : String → MetaResp) (cache : Cache)
    (tx : RawTx) :
    (extract_token_details watched oracle cache tx).1.time = render_time tx.timestamp := by
  simp only [extract_token_details]
  split <;> rfl

/-! ### Claim theorems -/

/-- C4: for every `n ≥ 1`, after `n` consecutive rate-limited fetch outcomes
starting from the base delay, the stored retry delay equals
`min(base * 2^n, max)` with base 20s and max 300s; and a single success
outcome resets the delay to the base. -/
theorem c4_backoff_formula (n : Nat) (_hn : 1 ≤ n) (d : Nat) :
    delayAfter (List.replicate n .rateLimited) =
      min (POLL_INTERVAL_SEC * 2 ^ n) MAX_BACKOFF ∧
    stepDelay d .success = POLL_INTERVAL_SEC := by
  exact ⟨backoff_iter n POLL_INTERVAL_SEC (by decide), rfl⟩

/-- Witness for C4 at `n = 3`: the stored delay is `min(20·8, 300) = 160`. -/
theorem c4_backoff_formula_witness :
    delayAfter (List.replicate 3 .rateLimited) =
      min (POLL_INTERVAL_SEC * 2 ^ 3) MAX_BACKOFF ∧
    stepDelay 77 .success = POLL_INTERVAL_SEC :=
  c4_backoff_formula 3 (by decide) 77

/-- C5: a delivery failure of the notification (a non-200 response) is only
logged; the cursor is still advanced to the transaction's signature and
persisted, and the loop continues (the per-transaction step returns
normally). -/
theorem c5_delivery_failure_swallowed (watched : String) (oracle : String → MetaResp)
    (st : LoopState) (tx : RawTx) (status : Nat) (hs : status ≠ 200) :
    (processTx watched oracle true status st tx).2 = .failed status ∧
    (processTx watched oracle true status st tx).1.lastSig = tx.signature ∧
    (processTx watched oracle true status st tx).1.stored = tx.signature := by
  refine ⟨?_, rfl, rfl⟩
  simp [processTx, send_telegram_text, hs]

/-- Witness for C5: a 500 response on `txA` still advances and saves the
cursor to `"A"`. -/
theorem c5_delivery_failure_swallowed_witness :
    (processTx "w" (fun _ => .err) true 500 initState txA).2 = .failed 500 ∧
    (processTx "w" (fun _ => .err) true 500 initState txA).1.lastSig = txA.signature ∧
    (processTx "w" (fun _ => .err) true 500 initState txA).1.stored = txA.signature :=
  c5_delivery_failure_swallowed "w" (fun _ => .err) initState txA 500 (by decide)

/-- C6: on a cache miss, if the metadata lookup fails in any way (network
error / raised status, empty result array, or missing name and symbol
fields), the cache gains exactly `(mint, ("unknown","unknown"))` and the
pair `("unknown","unknown")` is returned. -/
theorem c6_failure_caches_unknown (cache : Cache) (mint : String) (resp : MetaResp)
    (hmiss : cache.lookup mint = none)
    (hfail : resp = .err ∨ resp = .ok [] ∨
      ∃ meta rest, resp = .ok (meta :: rest) ∧ meta.name = none ∧ meta.symbol = none) :
    fetch_token_metadata cache mint resp =
      (("unknown", "unknown"), (mint, ("unknown", "unknown")) :: cache, true) := by
  rcases hfail with rfl | rfl | ⟨meta, rest, rfl, hn, hsym⟩
  · simp [fetch_token_metadata, hmiss]
  · simp [fetch_token_metadata, hmiss]
  · simp [fetch_token_metadata, hmiss, stripField, hn, hsym]

/-- Witness for C6, the spec scenario: mint `"Mx"`, empty cache, lookup
returns an empty list. -/
theorem c6_failure_caches_unknown_witness :
    fetch_token_metadata [] "Mx" (.ok []) =
      (("unknown", "unknown"), [("Mx", ("unknown", "unknown"))], true) :=
  c6_failure_caches_unknown [] "Mx" (.ok []) rfl (Or.inr (Or.inl rfl))

/-- C7: once `fetch_token_metadata` has been called for a mint (whatever the
first response was), a second call for the same mint returns the same pair,
leaves the cache unchanged, and issues no metadata lookup. -/
theorem c7_no_second_lookup (cache : Cache) (mint : String) (r1 r2 : MetaResp) :
    fetch_token_metadata (fetch_token_metadata cache mint r1).2.1 mint r2 =
      ((fetch_token_metadata cache mint r1).1,
        (fetch_token_metadata cache mint r1).2.1, false) := by
  rcases h : cache.lookup mint with _ | v
  · rcases r1 with _ | ⟨_ | ⟨meta, rest⟩⟩ <;>
      simp [fetch_token_metadata, h, List.lookup]
  · simp [fetch_token_metadata, h]

/-- C1 counterexample: in the window `[txA (ts 100), txB (ts 200)]` the
newest transaction is `txB` and the cursor equals its signature `"B"`, yet
the novelty filter returns `[txA]`, not the empty list: older transactions
with a different signature are re-selected. -/
theorem c1_counterexample :
    (sortWindow [txA, txB]).getLast? = some txB ∧
    txB.signature = some "B" ∧
    selectNew [txA, txB] (some "B") ≠ [] := by decide

/-- C1 (amended): if the cursor is a non-empty string `c` and every
transaction in the window carries signature `c` (in particular a singleton
window whose only transaction is the cursor's), the novelty filter returns
the empty list, so no alerts are emitted that cycle. -/
theorem c1_cursor_newest_empty (W : List RawTx) (c : String) (hc : c ≠ "")
    (hall : ∀ t ∈ W, t.signature = some c) : selectNew W (some c) = [] := by
  have ht : pyTruthyS (some c) = true := by
    simp [pyTruthyS, hc]
  simp only [selectNew, sortWindow, ht, if_true]
  rw [List.filter_eq_nil_iff]
  intro t htmem
  have : t.signature = some c := hall t (mem_sortWindow.mp htmem)
  simp [this]

/-- Witness for C1: the spec scenario `window = [{sig "A", ts 5}]`,
cursor `"A"`, yields no alerts. -/
theorem c1_cursor_newest_empty_witness :
    selectNew [(⟨some "A", some 5, none⟩ : RawTx)] (some "A") = [] :=
  c1_cursor_newest_empty [⟨some "A", some 5, none⟩] "A" (by decide) (by decide)

/-- C3: with no prior cursor, the novelty filter returns a permutation of
the whole window, sorted ascending by timestamp, with missing timestamps
keyed as 0, and with equal-timestamp transactions kept in original feed
order (the filter by any fixed key is unchanged, i.e. the sort is
stable). -/
theorem c3_no_cursor_sorted_window (txs : List RawTx) (_hne : txs ≠ []) :
    (selectNew txs none).Perm txs ∧
    List.Sorted rKey (selectNew txs none) ∧
    (∀ t ∈ txs, t.timestamp = none → sortKey t = 0) ∧
    (∀ k : Nat, (selectNew txs none).filter (fun t => sortKey t == k) =
      txs.filter (fun t => sortKey t == k)) := by
  refine ⟨List.perm_insertionSort rKey txs, sorted_selectNew txs none, ?_, ?_⟩
  · intro t _ ht
    simp [sortKey, ht]
  · intro k
    exact filter_key_insertionSort k txs

/-- Witness for C3 on the window `[txB, txA]` (out of order in the feed):
the stability clause at key 100. -/
theorem c3_no_cursor_sorted_window_witness :
    (selectNew [txB, txA] none).filter (fun t => sortKey t == 100) =
      [txB, txA].filter (fun t => sortKey t == 100) :=
  (c3_no_cursor_sorted_window [txB, txA] (by decide)).2.2.2 100

/-- C10 counterexample: an empty-string cursor is "present" as a value but
Python truthiness makes the code treat it as absent, so a transaction whose
signature equals the cursor `""` is NOT removed, contradicting the claimed
filter characterisation. -/
theorem c10_counterexample :
    selectNew [(⟨some "", some 1, none⟩ : RawTx)] (some "") ≠
      (sortWindow [(⟨some "", some 1, none⟩ : RawTx)]).filter
        (fun t => t.signature != some "") := by decide

/-- C10 (amended): for every non-empty-string cursor `c`, the novelty
filter's output equals the timestamp-sorted window with exactly the
transactions whose signature equals `c` removed; in particular every window
transaction with a different signature (however old) appears in the output,
and the output is sorted ascending by timestamp.  (An empty-string cursor is
treated by the code as absent.) -/
theorem c10_filter_characterization (W : List RawTx) (c : String) (hc : c ≠ "") :
    selectNew W (some c) =
      (sortWindow W).filter (fun t => t.signature != some c) ∧
    (∀ t ∈ W, t.signature ≠ some c → t ∈ selectNew W (some c)) ∧
    List.Sorted rKey (selectNew W (some c)) := by
  have ht : pyTruthyS (some c) = true := by
    simp [pyTruthyS, hc]
  refine ⟨by simp [selectNew, ht], ?_, sorted_selectNew W (some c)⟩
  intro t htW hsig
  simp only [selectNew, ht, if_true]
  exact List.mem_filter.mpr ⟨mem_sortWindow.mpr htW, by simp [hsig]⟩

/-- Witness for C10 on `[txA, txB]` with cursor `"B"`: the filter
characterisation holds concretely. -/
theorem c10_filter_characterization_witness :
    selectNew [txA, txB] (some "B") =
      (sortWindow [txA, txB]).filter (fun t => t.signature != some "B") :=
  (c10_filter_characterization [txA, txB] "B" (by decide)).1

/-- C8: the enricher prefers the first transfer whose from/to account equals
the watched address; with no match it falls back to the first transfer; with
no transfers at all, token name, ticker and mint default to `"unknown"`, the
cache is untouched and no metadata lookup is issued. -/
theorem c8_transfer_selection (watched : String) (oracle : String → MetaResp)
    (cache : Cache) (transfers : List TokenTransfer) (tx : RawTx) :
    (∀ pre c post, transfers = pre ++ c :: post → matchesWallet watched c = true →
      (∀ p ∈ pre, matchesWallet watched p = false) →
      selectCandidate watched transfers = some c) ∧
    ((∀ t ∈ transfers, matchesWallet watched t = false) →
      selectCandidate watched transfers = transfers.head?) ∧
    (tx.tokenTransfers.getD [] = [] →
      (extract_token_details watched oracle cache tx).1.token_name = "unknown" ∧
      (extract_token_details watched oracle cache tx).1.ticker = "unknown" ∧
      (extract_token_details watched oracle cache tx).1.mint = "unknown" ∧
      (extract_token_details watched oracle cache tx).2.1 = cache ∧
      (extract_token_details watched oracle cache tx).2.2 = false) := by
  refine ⟨?_, ?_, ?_⟩
  · intro pre c post hsplit hc hpre
    subst hsplit
    simp only [selectCandidate, find?_first_match watched pre c post hc hpre]
  · intro hnone
    have h : transfers.find? (matchesWallet watched) = none := by
      rw [List.find?_eq_none]
      intro t htmem
      simp [hnone t htmem]
    simp only [selectCandidate, h]
  · intro h
    simp [extract_token_details, h, selectCandidate]

/-- A transfer that does not touch the watched wallet `"W"`. -/
def tOther : TokenTransfer := ⟨some "X", some "Y", some "M1", none, none, none⟩

/-- A transfer whose `toUserAccount` is the watched wallet `"W"`. -/
def tOurs : TokenTransfer := ⟨some "X", some "W", some "M2", none, none, none⟩

/-- A transaction with no `tokenTransfers` field. -/
def txBare : RawTx := ⟨some "S", some 7, none⟩

/-- Witness for C8: the matching transfer is preferred over an earlier
non-matching one, and a transfer-less transaction keeps every field
`"unknown"` without touching the cache. -/
theorem c8_transfer_selection_witness :
    selectCandidate "W" [tOther, tOurs] = some tOurs ∧
    (extract_token_details "W" (fun _ => .err) [] txBare).1.mint = "unknown" :=
  ⟨(c8_transfer_selection "W" (fun _ => .err) [] [tOther, tOurs] txBare).1
      [tOther] tOurs [] rfl (by decide) (by decide),
    ((c8_transfer_selection "W" (fun _ => .err) [] [tOther, tOurs] txBare).2.2
      (by decide)).2.2.1⟩

/-- A transaction whose timestamp field is present but `0`. -/
def txZeroTs : RawTx := ⟨some "Z", some 0, none⟩

/-- C9 counterexample: a present timestamp of `0` is falsy in Python, so the
alert's time field is the literal `"unknown"` instead of the claimed
ISO-8601 rendering `ts_to_iso 0 = "1970-01-01T00:00:00+00:00"`. -/
theorem c9_counterexample :
    txZeroTs.timestamp = some 0 ∧
    (extract_token_details "w" (fun _ => .err) [] txZeroTs).1.time = "unknown" ∧
    ts_to_iso 0 ≠ "unknown" := by decide

/-- C9 (amended): if the timestamp is present and non-zero, the alert's time
field is its ISO-8601 UTC rendering; if it is absent — or present but `0`,
which Python truthiness conflates with absent — the time field is the
literal `"unknown"`. -/
theorem c9_time_rendering (watched : String) (oracle : String → MetaResp)
    (cache : Cache) (tx : RawTx) (ts : Nat) :
    (tx.timestamp = some ts → ts ≠ 0 →
      (extract_token_details watched oracle cache tx).1.time = ts_to_iso ts) ∧
    (tx.timestamp = none ∨ tx.timestamp = some 0 →
      (extract_token_details watched oracle cache tx).1.time = "unknown") := by
  rw [extract_time]
  constructor
  · intro hts hne
    simp [render_time, hts, hne]
  · rintro (hts | hts) <;> simp [render_time, hts]

/-- Witness for C9 on `txA` (timestamp 100): the time field is the ISO
rendering of 100. -/
theorem c9_time_rendering_witness :
    (extract_token_details "w" (fun _ => .err) [] txA).1.time = ts_to_iso 100 :=
  (c9_time_rendering "w" (fun _ => .err) [] txA 100).1 rfl (by decide)

/-- C2 counterexample: two successive windows.  The first (`txA` ts 100,
`txB` ts 200) advances the cursor to `"B"`; the second contains `txC`
(ts 150, a different signature, older than `txB`), which the filter keeps,
so the cursor is re-saved for a transaction with a smaller timestamp: the
saved-cursor sequence `[txA, txB, txC]` is not timestamp-monotone. -/
theorem c2_counterexample :
    ¬ List.Chain' rKey
      (savedTrace "w" (fun _ => MetaResp.err) true 200 initState
        [[txA, txB], [txC, txB]]) := by
  intro h
  have he : savedTrace "w" (fun _ => MetaResp.err) true 200 initState
      [[txA, txB], [txC, txB]] = [txA, txB, txC] := by decide
  rw [he] at h
  have h2 : rKey txB txC := (List.chain'_cons.mp (List.chain'_cons.mp h).2).1
  exact absurd h2 (by decide)

/-- C2 (amended): within a single poll cycle the saved cursor is
timestamp-monotone: the sequence of transactions whose signature the cycle
saves has non-decreasing timestamps.  (Across cycles the invariant fails,
see the counterexample: a later window can contain an older, unseen
transaction.) -/
theorem c2_cycle_cursor_monotone (watched : String) (oracle : String → MetaResp)
    (hasConfig : Bool) (status : Nat) (st : LoopState) (txs : List RawTx) :
    List.Chain' rKey (runCycle watched oracle hasConfig status st txs).2 := by
  have hbatch : List.Sorted rKey (selectNew txs st.lastSig) :=
    sorted_selectNew txs st.lastSig
  unfold runCycle
  split
  · exact List.chain'_nil
  · dsimp only
    split
    · split
      · rename_i newest hlast
        split
        · refine List.Pairwise.chain' (List.pairwise_append.mpr ⟨hbatch, ?_, ?_⟩)
          · exact List.pairwise_singleton rKey newest
          · intro a ha b hb
            have hb' : b = newest := by simpa using hb
            subst hb'
            exact key_le_getLast (sorted_sortWindow txs)
              (mem_of_mem_selectNew ha) hlast
        · exact hbatch.chain'
      · exact hbatch.chain'
    · exact hbatch.chain'

end Watcher
